import Mathlib

/-!
EchoGuard: shallow embedding and verification.

Shallow embedding of the EchoGuard backend (Python) in Lean 4, covering:

* `backend/ml/audio_processor.py` — `AudioProcessor.extract_features`
* `backend/ml/model.py` — `EchoGuardModel.CLASSES`, `THREAT_CLASSES`, `predict`
* `backend/routers/websocket.py` — `ConnectionManager.connect` / `disconnect`
  / `broadcast`
* `backend/services/alert_service.py` — `AlertService.send_alert`
* `backend/routers/audio.py` — the `analyze` endpoint

Modelling conventions:

* Python floats are modelled as `ℚ` (exact arithmetic; the claims under
  study are about control flow, lengths and orderings, not rounding).
* numpy 1-D arrays are Lean `List ℚ`; `reshape(1, -1)` / `flatten` are
  identities on the carried contents and are dropped.
* WebSocket connection objects are abstracted to `ℕ` identities; whether a
  `send_json` to a given connection raises is a parameter
  (`connFails : ℕ → Bool`), and whether the configured webhook raises is a
  parameter (`webhookFails : Bool`).
* A SQLAlchemy session is a pure record of rows; each `db.commit()` that
  writes the Alert row is recorded as one entry of a trace, so the
  committed status history of an Alert is observable.
* Library functions not part of the repository (librosa features,
  the Keras model) appear as parameters: theorems quantify over every
  output those libraries could produce.
-/

namespace EchoGuard

/-! ## `backend/ml/model.py` — classes and threat policy -/

/-- Model of `EchoGuardModel.CLASSES` (model.py lines 17-23): the fixed label
ordering. -/
def CLASSES : List String :=
  ["marine_life", "vessel", "blast_fishing", "seismic", "ambient"]

/-- Model of `EchoGuardModel.THREAT_CLASSES` (model.py line 25): the labels treated
as threats, a plain list used by membership test. -/
def THREAT_CLASSES : List String := ["vessel", "blast_fishing", "seismic"]

/-- Result of `EchoGuardModel.predict` (model.py lines 109-114): the dict
`{event_type, confidence, is_threat, class_probabilities}`. -/
structure Prediction where
  event_type : String
  confidence : ℚ
  is_threat : Bool
  class_probabilities : List (String × ℚ)
  deriving Repr, DecidableEq

/-- Semantics of `np.argmax` on a 1-D array, by its documented semantics: index of the
first occurrence of the maximum (paired with that maximum).  On the empty
list we return `(0, 0)`; the model output always has 5 entries. -/
def np_argmax : List ℚ → ℕ × ℚ
  | [] => (0, 0)
  | [x] => (0, x)
  | x :: y :: xs =>
    let r := np_argmax (y :: xs)
    if x < r.2 then (r.1 + 1, r.2) else (0, x)

/-- model.py lines 86-96: the defensive length normalization inside
`predict` — `if len(features) != 12000: pad with zeros or trim`. -/
def normalizeLength (features : List ℚ) : List ℚ :=
  if features.length ≠ 12000 then
    if features.length < 12000 then
      features ++ List.replicate (12000 - features.length) 0
    else
      features.take 12000
  else
    features

/-- model.py lines 98-114: the post-model part of `predict` — argmax over
the probability vector, class name lookup, threat flag by membership in
`THREAT_CLASSES`, probabilities zipped with class names. -/
def classify (probs : List ℚ) : Prediction :=
  let class_idx := (np_argmax probs).1
  let confidence := probs.getD class_idx 0
  let class_name := CLASSES.getD class_idx ""
  { event_type := class_name
    confidence := confidence
    is_threat := decide (class_name ∈ THREAT_CLASSES)
    class_probabilities := CLASSES.zip probs }

/-- Model of `EchoGuardModel.predict` (model.py lines 82-114): flatten (identity
here), normalize length to 12000, run the network (`modelFn`, a parameter:
the Keras model is not source of this repository), then `classify`. -/
def predict (modelFn : List ℚ → List ℚ) (features : List ℚ) : Prediction :=
  classify (modelFn (normalizeLength features))

/-! ## `backend/ml/audio_processor.py` — feature extraction -/

/-- audio_processor.py line 64: `target_size = 128 * 87 + 13 * 87 + 87 * 3`. -/
def FEATURE_TARGET : ℕ := 128 * 87 + 13 * 87 + 87 * 3

/-- audio_processor.py lines 38-62: the `features` list built from the five
librosa sub-features (each truncated by slicing) and concatenated with
`np.concatenate`.  The sub-feature arrays themselves come from librosa
(not source of this repository) and are parameters. -/
def feature_concat (mel_spec_db mfccs spectral_centroids spectral_rolloff
    zero_crossing_rate : List ℚ) : List ℚ :=
  mel_spec_db.take (128 * 87) ++ mfccs.take (13 * 87) ++
    spectral_centroids.take 87 ++ spectral_rolloff.take 87 ++
    zero_crossing_rate.take 87

/-- Model of `AudioProcessor.extract_features` (audio_processor.py lines 36-73):
concatenate the sub-features, then pad with zeros or trim to
`FEATURE_TARGET` (`np.pad` on the right / slice).  The final
`reshape(1, -1)` carries the same contents and is dropped. -/
def extract_features (mel_spec_db mfccs spectral_centroids spectral_rolloff
    zero_crossing_rate : List ℚ) : List ℚ :=
  let feature_vector := feature_concat mel_spec_db mfccs spectral_centroids
    spectral_rolloff zero_crossing_rate
  if feature_vector.length < FEATURE_TARGET then
    feature_vector ++ List.replicate (FEATURE_TARGET - feature_vector.length) 0
  else
    feature_vector.take FEATURE_TARGET

/-! ## `backend/routers/websocket.py` — ConnectionManager -/

/-- State of `ConnectionManager` (websocket.py lines 17-19):
`active_connections` is a Python list of connection objects (here `ℕ`
identities), `connection_metadata` a dict keyed by connection; we keep the
assigned `client_id` string per connection as an association list (the
`connected_at` timestamp plays no role in any claim and is omitted). -/
structure WSState where
  active_connections : List ℕ
  connection_metadata : List (ℕ × String)
  deriving Repr, DecidableEq

/-- Model of `ConnectionManager.connect` (websocket.py lines 21-27): append the
connection, then store metadata with
`client_id or f"client_{len(self.active_connections)}"` — the length is
taken after the append, and a `None` (or empty, falsy) client id gets the
generated name.  Dict assignment replaces any previous entry for the same
key. -/
def connect (websocket : ℕ) (client_id : Option String) (st : WSState) :
    WSState :=
  let active := st.active_connections ++ [websocket]
  let cid :=
    match client_id with
    | some s => if s = "" then "client_" ++ toString active.length else s
    | none => "client_" ++ toString active.length
  { active_connections := active
    connection_metadata :=
      st.connection_metadata.filter (fun p => p.1 ≠ websocket) ++
        [(websocket, cid)] }

/-- Model of `ConnectionManager.disconnect` (websocket.py lines 29-34): remove the
first occurrence from `active_connections` if present (`list.remove`), and
delete the metadata entry if present. -/
def disconnect (websocket : ℕ) (st : WSState) : WSState :=
  { active_connections :=
      if websocket ∈ st.active_connections then
        st.active_connections.erase websocket
      else
        st.active_connections
    connection_metadata :=
      st.connection_metadata.filter (fun p => p.1 ≠ websocket) }

/-- Abstraction of `websocket.send_json`: raises exactly when the environment
says this connection fails. -/
def send_json (connFails : ℕ → Bool) (c : ℕ) : Except String Unit :=
  if connFails c then Except.error "Error broadcasting to connection"
  else Except.ok ()

/-- The loop body of `ConnectionManager.broadcast` (websocket.py lines
46-52): try `send_json` on each connection in order; successes are the
deliveries, failures are collected into `disconnected`. -/
def broadcastLoop (connFails : ℕ → Bool) : List ℕ → List ℕ × List ℕ
  | [] => ([], [])
  | c :: rest =>
    let r := broadcastLoop connFails rest
    match send_json connFails c with
    | Except.ok _ => (c :: r.1, r.2)
    | Except.error _ => (r.1, c :: r.2)

/-- Model of `ConnectionManager.broadcast` (websocket.py lines 44-56): deliver to
every current connection, catching per-connection exceptions, then
disconnect each failed connection.  Returns the list of connections that
were actually delivered to, and the new state. -/
def broadcast (connFails : ℕ → Bool) (st : WSState) : List ℕ × WSState :=
  let r := broadcastLoop connFails st.active_connections
  (r.1, r.2.foldl (fun s c => disconnect c s) st)

/-! ## `backend/models.py` and `backend/services/alert_service.py` -/

/-- The `Detection` row (models.py lines 27-47), restricted to the columns
the claims mention. -/
structure DetectionRec where
  id : ℕ
  hydrophone_id : Option ℕ
  event_type : String
  confidence : ℚ
  is_threat : Bool
  latitude : Option ℚ
  longitude : Option ℚ
  deriving Repr, DecidableEq

/-- The `Alert` row (models.py lines 50-60): `status` defaults to
`"pending"`, `sent_at` is nullable. -/
structure AlertRec where
  detection_id : ℕ
  alert_type : String
  status : String
  sent_at : Option ℕ
  message : String
  deriving Repr, DecidableEq, Inhabited

/-- The `Hydrophone` row (models.py lines 12-24), restricted to the columns
used by the analyze endpoint. -/
structure Hydrophone where
  id : ℕ
  latitude : Option ℚ
  longitude : Option ℚ
  deriving Repr, DecidableEq

/-- The webhook POST in `AlertService._send_webhook` (alert_service.py
lines 45-70): raises exactly when the environment says so. -/
def webhook_send (webhookFails : Bool) : Except String Unit :=
  if webhookFails then Except.error "Webhook failed" else Except.ok ()

/-- The body of the `try` block of `AlertService.send_alert` after the
first commit (alert_service.py lines 30-36): send the webhook when
configured (propagating its exception), then set `status = "sent"`.
Note the code does not assign `sent_at` here. -/
def send_alert_attempt (webhookConfigured webhookFails : Bool)
    (alert : AlertRec) : Except String AlertRec :=
  match (if webhookConfigured then webhook_send webhookFails
         else Except.ok ()) with
  | Except.ok _ => Except.ok { alert with status := "sent" }
  | Except.error e => Except.error e

/-- Model of `AlertService.send_alert` (alert_service.py lines 18-43), returning the
trace of committed states of the Alert row: the first commit writes the
`"pending"` row; then either the `try` block commits `status = "sent"`, or
the `except` block commits `status = "failed"`.  The `:.2f` formatting of
the confidence is abstracted by `toString`. -/
def send_alert (webhookConfigured webhookFails : Bool)
    (detection : DetectionRec) : List AlertRec :=
  let alert : AlertRec :=
    { detection_id := detection.id
      alert_type := "webhook"
      status := "pending"
      sent_at := none
      message := "Threat detected: " ++ detection.event_type ++
        " (confidence: " ++ toString detection.confidence ++ ")" }
  match send_alert_attempt webhookConfigured webhookFails alert with
  | Except.ok a => [alert, a]
  | Except.error _ => [alert, { alert with status := "failed" }]

/-! ## `backend/routers/audio.py` — the analyze endpoint -/

/-- Python `a or b` where `a` is an `Optional[float]`: both `None` and
`0.0` are falsy and fall through to `b`. -/
def pyOr (a b : Option ℚ) : Option ℚ :=
  match a with
  | some v => if v = 0 then b else some v
  | none => b

/-- Evaluation of `hydrophone.latitude if hydrophone else None`
(audio.py line 81). -/
def hydroLat (hydrophone : Option Hydrophone) : Option ℚ :=
  match hydrophone with
  | some h => h.latitude
  | none => none

/-- Evaluation of `hydrophone.longitude if hydrophone else None`
(audio.py line 82). -/
def hydroLon (hydrophone : Option Hydrophone) : Option ℚ :=
  match hydrophone with
  | some h => h.longitude
  | none => none

/-- audio.py lines 75-84: build the `Detection` record; `latitude` is
`latitude or (hydrophone.latitude if hydrophone else None)`, and
symmetrically for `longitude`.  The id is assigned by the database on
commit (`db.refresh`), passed in here. -/
def mkDetection (newId : ℕ) (pred : Prediction) (hydrophone_id : Option ℕ)
    (hydrophone : Option Hydrophone) (latitude longitude : Option ℚ) :
    DetectionRec :=
  { id := newId
    hydrophone_id := hydrophone_id
    event_type := pred.event_type
    confidence := pred.confidence
    is_threat := pred.is_threat
    latitude := pyOr latitude (hydroLat hydrophone)
    longitude := pyOr longitude (hydroLon hydrophone) }

/-- The persistent rows the endpoint touches: detections and the latest
committed state of each alert. -/
structure DB where
  detections : List DetectionRec
  alerts : List AlertRec
  deriving Repr, DecidableEq

/-- Environment of one `analyze` call: `settings.ENABLE_ALERTS`, whether
`settings.ALERT_WEBHOOK_URL` is nonempty, whether the webhook POST raises,
and which WebSocket sends raise. -/
structure AnalyzeEnv where
  enableAlerts : Bool
  webhookConfigured : Bool
  webhookFails : Bool
  connFails : ℕ → Bool

/-- The `analyze` endpoint `analyze_audio` (audio.py lines 35-125).
`earlyFails` folds together every failure source before the detection is
committed (file read, format validation, preprocessing, prediction,
hydrophone 404, detection commit): any of those surfaces as an HTTP error
(the surrounding `except` re-raises as a 500).  After the commit: send the
alert when the prediction is a threat and alerts are enabled (send_alert
catches its own exceptions; its last committed row state lands in the DB),
broadcast the detection, broadcast the alert when a threat (broadcast
catches per-connection exceptions), and return the response.  The returned
`DetectionRec` stands for the response body built from the detection. -/
def analyze_upload (earlyFails : Bool) (pred : Prediction)
    (hydrophone_id : Option ℕ) (hydrophone : Option Hydrophone)
    (latitude longitude : Option ℚ) (env : AnalyzeEnv) (db : DB)
    (ws : WSState) : Except String (DB × WSState × DetectionRec) :=
  if earlyFails then
    Except.error "Error processing audio"
  else
    let detection := mkDetection (db.detections.length + 1) pred
      hydrophone_id hydrophone latitude longitude
    let db1 : DB := { db with detections := db.detections ++ [detection] }
    let db2 : DB :=
      if pred.is_threat && env.enableAlerts then
        { db1 with alerts := db1.alerts ++
            [(send_alert env.webhookConfigured env.webhookFails
                detection).getLastD default] }
      else
        db1
    let ws1 := (broadcast env.connFails ws).2
    let ws2 :=
      if pred.is_threat then (broadcast env.connFails ws1).2 else ws1
    Except.ok (db2, ws2, detection)


/-! ## Concrete records used by closed theorems -/

/-- A concrete threat detection row, used by the closed theorems about the
alert dispatcher. -/
def detectionExample : DetectionRec :=
  { id := 1
    hydrophone_id := none
    event_type := "vessel"
    confidence := 9 / 10
    is_threat := true
    latitude := none
    longitude := none }

/-- A concrete non-threat prediction, used by the closed theorems about the
analyze endpoint. -/
def ambientPrediction : Prediction :=
  { event_type := "ambient"
    confidence := 1 / 2
    is_threat := false
    class_probabilities := [] }

/-- A concrete threat prediction, used by the witness of the notification
isolation theorem. -/
def vesselPrediction : Prediction :=
  { event_type := "vessel"
    confidence := 9 / 10
    is_threat := true
    class_probabilities := [] }

/-- A concrete hydrophone with a non-null position. -/
def hydrophoneExample : Hydrophone :=
  { id := 7, latitude := some 5, longitude := some 6 }

/-- Environment where alerts are enabled, the webhook is configured and the
webhook POST raises; no WebSocket send raises. -/
def envFailingWebhook : AnalyzeEnv :=
  { enableAlerts := true
    webhookConfigured := true
    webhookFails := true
    connFails := fun _ => false }

/-- Environment with alerts disabled and nothing failing. -/
def quietEnv : AnalyzeEnv :=
  { enableAlerts := false
    webhookConfigured := false
    webhookFails := false
    connFails := fun _ => false }

/-! ## Helper lemmas about `np_argmax` -/

theorem np_argmax_fst_lt (l : List ℚ) (h : l ≠ []) :
    (np_argmax l).1 < l.length := by
  induction l with
  | nil => exact absurd rfl h
  | cons x xs ih =>
    cases xs with
    | nil => simp [np_argmax]
    | cons y ys =>
      have h2 := ih (by simp)
      simp only [np_argmax]
      split
      · simpa using Nat.succ_lt_succ h2
      · simp

theorem np_argmax_getD (l : List ℚ) (h : l ≠ []) :
    l.getD (np_argmax l).1 0 = (np_argmax l).2 := by
  induction l with
  | nil => exact absurd rfl h
  | cons x xs ih =>
    cases xs with
    | nil => simp [np_argmax]
    | cons y ys =>
      have h2 := ih (by simp)
      simp only [np_argmax]
      split
      · simpa using h2
      · simp

theorem np_argmax_le (l : List ℚ) :
    ∀ j, j < l.length → l.getD j 0 ≤ (np_argmax l).2 := by
  induction l with
  | nil => intro j hj; simp at hj
  | cons x xs ih =>
    intro j hj
    cases xs with
    | nil =>
      cases j with
      | zero => simp [np_argmax]
      | succ j => simp at hj
    | cons y ys =>
      simp only [np_argmax]
      split
      · rename_i hlt
        cases j with
        | zero => simpa using le_of_lt hlt
        | succ j =>
          have := ih j (by simpa using Nat.lt_of_succ_lt_succ hj)
          simpa using this
      · rename_i hge
        push_neg at hge
        cases j with
        | zero => simp
        | succ j =>
          have := ih j (by simpa using Nat.lt_of_succ_lt_succ hj)
          simpa using le_trans this hge

theorem np_argmax_lt_of_lt (l : List ℚ) :
    ∀ j, j < (np_argmax l).1 → l.getD j 0 < (np_argmax l).2 := by
  induction l with
  | nil => intro j hj; simp [np_argmax] at hj
  | cons x xs ih =>
    intro j hj
    cases xs with
    | nil => simp [np_argmax] at hj
    | cons y ys =>
      simp only [np_argmax] at hj ⊢
      split at hj
      · rename_i hlt
        simp only [if_pos hlt]
        cases j with
        | zero => simpa using hlt
        | succ j =>
          have := ih j (by simpa using Nat.lt_of_succ_lt_succ hj)
          simpa using this
      · simp at hj


/-! ## Helper lemma about the extractor length -/

theorem extract_features_len (ms mf sc sr zc : List ℚ) :
    (extract_features ms mf sc sr zc).length = FEATURE_TARGET := by
  simp only [extract_features]
  split
  · rename_i h
    simp only [List.length_append, List.length_replicate]
    omega
  · rename_i h
    push_neg at h
    simp only [List.length_take]
    omega

/-! ## Claim theorems: ML pipeline -/

/-- C2: for every input waveform (modelled by quantifying over every
possible librosa sub-feature output), `extract_features` returns a vector
of length exactly the pipeline constant 128·87 + 13·87 + 3·87 = 12528:
shorter concatenations are zero-padded on the right, longer ones are
truncated. -/
theorem extract_features_fixed_length (ms mf sc sr zc : List ℚ) :
    (extract_features ms mf sc sr zc).length = FEATURE_TARGET ∧
    FEATURE_TARGET = 12528 ∧
    ((feature_concat ms mf sc sr zc).length < FEATURE_TARGET →
      extract_features ms mf sc sr zc =
        feature_concat ms mf sc sr zc ++
          List.replicate
            (FEATURE_TARGET - (feature_concat ms mf sc sr zc).length) 0) ∧
    (FEATURE_TARGET ≤ (feature_concat ms mf sc sr zc).length →
      extract_features ms mf sc sr zc =
        (feature_concat ms mf sc sr zc).take FEATURE_TARGET) := by
  refine ⟨extract_features_len ms mf sc sr zc, rfl, ?_, ?_⟩
  · intro h
    simp [extract_features, h]
  · intro h
    simp [extract_features, Nat.not_lt.mpr h]

/-- Witness for C2: on empty sub-features the concatenation is empty,
shorter than the target, so the result is all zeros of the target
length. -/
theorem extract_features_fixed_length_witness :
    extract_features [] [] [] [] [] = List.replicate 12528 (0 : ℚ) :=
  (extract_features_fixed_length [] [] [] [] []).2.2.1 (by decide)

/-- C3: the threat policy is total over the fixed label set and is exactly
the documented subset; the flag depends only on the selected label (never
on the confidence), and is a membership test in `THREAT_CLASSES`. -/
theorem threat_policy_total :
    (∀ label, label ∈ CLASSES →
      ((label ∈ THREAT_CLASSES) ↔
        (label = "vessel" ∨ label = "blast_fishing" ∨ label = "seismic"))) ∧
    (∀ probs : List ℚ,
      ((classify probs).is_threat = true ↔
        (classify probs).event_type ∈ THREAT_CLASSES)) ∧
    (∀ p q : List ℚ, (classify p).event_type = (classify q).event_type →
      (classify p).is_threat = (classify q).is_threat) := by
  refine ⟨?_, ?_, ?_⟩
  · intro label hl
    fin_cases hl <;> simp [THREAT_CLASSES]
  · intro probs
    show decide ((classify probs).event_type ∈ THREAT_CLASSES) = true ↔ _
    simp
  · intro p q h
    show decide ((classify p).event_type ∈ THREAT_CLASSES) =
      decide ((classify q).event_type ∈ THREAT_CLASSES)
    rw [h]

/-- Witness for C3 at the concrete label "vessel". -/
theorem threat_policy_total_witness : "vessel" ∈ THREAT_CLASSES :=
  (threat_policy_total.1 "vessel" (by decide)).mpr (Or.inl rfl)

/-- C7: when two or more entries of the probability vector share the
numerically maximal value, `predict` (here its post-model part `classify`)
selects the lowest index attaining the maximum, returns the corresponding
label of the fixed ordering, and the confidence equals that maximal
probability. -/
theorem predict_tie_lowest_index (probs : List ℚ) (h5 : probs.length = 5)
    (i1 i2 : ℕ) (h1 : i1 < 5) (_h2 : i2 < 5) (_hne : i1 ≠ i2)
    (hmax : ∀ j, j < 5 → probs.getD j 0 ≤ probs.getD i1 0)
    (_htie : probs.getD i2 0 = probs.getD i1 0) :
    (classify probs).confidence = probs.getD i1 0 ∧
    (∀ j, j < 5 → probs.getD j 0 ≤ (classify probs).confidence) ∧
    (∀ j, j < 5 → probs.getD j 0 = (classify probs).confidence →
      (np_argmax probs).1 ≤ j) ∧
    (classify probs).event_type = CLASSES.getD (np_argmax probs).1 "" ∧
    (np_argmax probs).1 < 5 := by
  have hnil : probs ≠ [] := by
    intro h
    rw [h] at h5
    simp at h5
  have hget : probs.getD (np_argmax probs).1 0 = (np_argmax probs).2 :=
    np_argmax_getD probs hnil
  have hlt : (np_argmax probs).1 < 5 := h5 ▸ np_argmax_fst_lt probs hnil
  have hconf : (classify probs).confidence =
      probs.getD (np_argmax probs).1 0 := rfl
  have hmaxv : ∀ j, j < 5 → probs.getD j 0 ≤ (np_argmax probs).2 :=
    fun j hj => np_argmax_le probs j (by rw [h5]; exact hj)
  have hv_le : (np_argmax probs).2 ≤ probs.getD i1 0 := hget ▸ hmax _ hlt
  have h_le_v : probs.getD i1 0 ≤ (np_argmax probs).2 := hmaxv i1 h1
  have heq : (np_argmax probs).2 = probs.getD i1 0 :=
    le_antisymm hv_le h_le_v
  refine ⟨by rw [hconf, hget, heq], ?_, ?_, rfl, hlt⟩
  · intro j hj
    rw [hconf, hget, heq]
    exact hmax j hj
  · intro j hj hjv
    by_contra hcon
    push_neg at hcon
    have hstrict := np_argmax_lt_of_lt probs j hcon
    rw [hconf, hget] at hjv
    rw [hjv] at hstrict
    exact lt_irrefl _ hstrict

/-- Witness for C7 at a concrete two-way tie between indices 0 and 1: the
returned confidence is the tied maximum and the argmax lands at index at
most 1 (in fact 0). -/
theorem predict_tie_lowest_index_witness :
    (classify [2, 2, 1, 0, 0]).confidence = (2 : ℚ) ∧
    (np_argmax [(2 : ℚ), 2, 1, 0, 0]).1 ≤ 1 :=
  ⟨(predict_tie_lowest_index [2, 2, 1, 0, 0] (by decide) 0 1
      (by decide) (by decide) (by decide) (by decide) (by decide)).1,
   (predict_tie_lowest_index [2, 2, 1, 0, 0] (by decide) 0 1
      (by decide) (by decide) (by decide) (by decide) (by decide)).2.2.1 1
      (by decide) (by decide)⟩

/-- C8: the defensive pad/truncate step inside `predict` is the identity on
inputs that already have the expected length 12000. -/
theorem normalizeLength_identity (features : List ℚ)
    (h : features.length = 12000) : normalizeLength features = features := by
  simp [normalizeLength, h]

/-- Witness for C8 at a concrete 12000-entry vector. -/
theorem normalizeLength_identity_witness :
    normalizeLength (List.replicate 12000 0) =
      List.replicate 12000 (0 : ℚ) :=
  normalizeLength_identity _ (by rw [List.length_replicate])

/-- C9: the extractor target (12528) strictly exceeds the classifier input
length (12000), so the defensive normalization truncates every extractor
output, keeping the first 12000 features and discarding the final 528; the
pad branch and the identity case are never reached on extractor output. -/
theorem extractor_output_always_truncated (ms mf sc sr zc : List ℚ) :
    (extract_features ms mf sc sr zc).length = 12528 ∧
    12000 < FEATURE_TARGET ∧
    normalizeLength (extract_features ms mf sc sr zc) =
      (extract_features ms mf sc sr zc).take 12000 ∧
    (normalizeLength (extract_features ms mf sc sr zc)).length = 12000 ∧
    ((extract_features ms mf sc sr zc).drop 12000).length = 528 := by
  have h1 : (extract_features ms mf sc sr zc).length = 12528 := by
    rw [extract_features_len]
    rfl
  have hnorm : normalizeLength (extract_features ms mf sc sr zc) =
      (extract_features ms mf sc sr zc).take 12000 := by
    unfold normalizeLength
    rw [h1]
    norm_num
  refine ⟨h1, by norm_num [FEATURE_TARGET], hnorm, ?_, ?_⟩
  · rw [hnorm]
    simp [List.length_take, h1]
  · simp [List.length_drop, h1]

/-- Witness-style instantiation for C9 at empty sub-features. -/
theorem extractor_output_always_truncated_witness :
    normalizeLength (extract_features [] [] [] [] []) =
      (extract_features [] [] [] [] []).take 12000 :=
  (extractor_output_always_truncated [] [] [] [] []).2.2.1


/-! ## Helper lemmas about the ConnectionManager -/

theorem broadcastLoop_eq (connFails : ℕ → Bool) (l : List ℕ) :
    broadcastLoop connFails l =
      (l.filter (fun c => !(connFails c)), l.filter connFails) := by
  induction l with
  | nil => rfl
  | cons c rest ih =>
    simp only [broadcastLoop, ih, send_json]
    cases h : connFails c <;> simp [List.filter_cons, h]

theorem filter_eq_pos_of_nodup (l : List ℕ) (k : ℕ) (hd : l.Nodup)
    (hk : k ∈ l) : l.filter (fun c => c == k) = [k] := by
  induction l with
  | nil => simp at hk
  | cons a rest ih =>
    rcases List.mem_cons.mp hk with h | h
    · subst h
      have hnot : k ∉ rest := (List.nodup_cons.mp hd).1
      have hrest : rest.filter (fun c => c == k) = [] := by
        refine List.filter_eq_nil_iff.mpr ?_
        intro b hb
        simp only [beq_iff_eq]
        intro hba
        exact hnot (hba ▸ hb)
      simp [List.filter_cons, hrest]
    · have hne : a ≠ k := by
        rintro rfl
        exact (List.nodup_cons.mp hd).1 h
      have hrec := ih (List.nodup_cons.mp hd).2 h
      simp [List.filter_cons, hne, hrec]

theorem length_filter_not_of_nodup (l : List ℕ) (k : ℕ) (hd : l.Nodup)
    (hk : k ∈ l) :
    (l.filter (fun c => !(c == k))).length = l.length - 1 := by
  have hpart := List.length_eq_length_filter_add (l := l) (fun c => c == k)
  rw [filter_eq_pos_of_nodup l k hd hk] at hpart
  simp only [List.length_cons, List.length_nil] at hpart
  omega

/-! ## Claim theorems: ConnectionManager -/

/-- C4: when exactly subscriber `k` of a registry of `N` distinct
subscribers raises on send, a single `broadcast` still delivers to all the
other `N - 1` subscribers, and afterwards exactly `k` has been removed
from the registry while the others remain. -/
theorem broadcast_isolates_failing_subscriber (k : ℕ) (st : WSState)
    (hd : st.active_connections.Nodup) (hk : k ∈ st.active_connections) :
    (broadcast (fun c => c == k) st).1 =
      st.active_connections.filter (fun c => !(c == k)) ∧
    (broadcast (fun c => c == k) st).1.length =
      st.active_connections.length - 1 ∧
    (broadcast (fun c => c == k) st).2.active_connections =
      st.active_connections.filter (fun c => !(c == k)) ∧
    (∀ c ∈ st.active_connections, c ≠ k →
      c ∈ (broadcast (fun c => c == k) st).2.active_connections) ∧
    k ∉ (broadcast (fun c => c == k) st).2.active_connections := by
  have hloop := broadcastLoop_eq (fun c => c == k) st.active_connections
  have hsingle := filter_eq_pos_of_nodup st.active_connections k hd hk
  have hb : broadcast (fun c => c == k) st =
      (st.active_connections.filter (fun c => !(c == k)),
        disconnect k st) := by
    simp only [broadcast, hloop, hsingle]
    rfl
  have hdis : (disconnect k st).active_connections =
      st.active_connections.filter (fun c => !(c == k)) := by
    simp only [disconnect, if_pos hk]
    have herase := hd.erase_eq_filter k
    simpa [bne] using herase
  refine ⟨by rw [hb], ?_, ?_, ?_, ?_⟩
  · rw [hb]
    exact length_filter_not_of_nodup _ k hd hk
  · rw [hb]
    exact hdis
  · intro c hc hck
    rw [hb]
    rw [hdis]
    exact List.mem_filter.mpr ⟨hc, by simp [hck]⟩
  · rw [hb]
    rw [hdis]
    intro hmem
    have := (List.mem_filter.mp hmem).2
    simp at this

/-- Witness for C4: registry `[1, 2, 3]` with subscriber 2 failing — the
other two are delivered to and only 2 is removed. -/
theorem broadcast_isolates_failing_subscriber_witness :
    (broadcast (fun c => c == 2) ⟨[1, 2, 3], []⟩).1 = [1, 3] ∧
    (broadcast (fun c => c == 2)
      ⟨[1, 2, 3], []⟩).2.active_connections = [1, 3] := by
  have h := broadcast_isolates_failing_subscriber 2 ⟨[1, 2, 3], []⟩
    (by decide) (by decide)
  exact ⟨by rw [h.1]; decide, by rw [h.2.2.1]; decide⟩

/-- C10: when `connect` is called without a client identifier, the assigned
identifier is `"client_"` followed by the registry size after insertion;
consequently two simultaneously registered subscribers can end up holding
the same assigned identifier (connect 1, connect 2, disconnect 1,
connect 3 leaves both 2 and 3 registered as `"client_2"`). -/
theorem connect_assigns_size_based_id :
    (∀ (st : WSState) (ws : ℕ),
      (ws, "client_" ++ toString
          (connect ws none st).active_connections.length)
        ∈ (connect ws none st).connection_metadata) ∧
    (∃ (st : WSState) (c1 c2 : ℕ) (cid : String),
      c1 ≠ c2 ∧ c1 ∈ st.active_connections ∧ c2 ∈ st.active_connections ∧
      (c1, cid) ∈ st.connection_metadata ∧
      (c2, cid) ∈ st.connection_metadata ∧
      st = connect 3 none
        (disconnect 1 (connect 2 none (connect 1 none ⟨[], []⟩)))) := by
  constructor
  · intro st ws
    simp [connect]
  · exact ⟨connect 3 none
      (disconnect 1 (connect 2 none (connect 1 none ⟨[], []⟩))),
      2, 3, "client_2", by decide, by decide, by decide, by decide,
      by decide, rfl⟩

/-- Witness for C10: connecting to the empty registry assigns
`"client_1"`. -/
theorem connect_assigns_size_based_id_witness :
    ((1 : ℕ), "client_1") ∈ (connect 1 none ⟨[], []⟩).connection_metadata :=
  connect_assigns_size_based_id.1 ⟨[], []⟩ 1


/-! ## Helper lemma about the analyze endpoint -/

theorem analyze_upload_parts (pred : Prediction) (hid : Option ℕ)
    (hydro : Option Hydrophone) (lat lon : Option ℚ) (env : AnalyzeEnv)
    (db : DB) (ws : WSState) :
    ∃ dbOut wsOut,
      analyze_upload false pred hid hydro lat lon env db ws =
        Except.ok (dbOut, wsOut,
          mkDetection (db.detections.length + 1) pred hid hydro lat lon) ∧
      dbOut.detections = db.detections ++
        [mkDetection (db.detections.length + 1) pred hid hydro lat lon] ∧
      dbOut.alerts =
        (if pred.is_threat && env.enableAlerts then
          db.alerts ++ [(send_alert env.webhookConfigured env.webhookFails
            (mkDetection (db.detections.length + 1) pred hid hydro lat
              lon)).getLastD default]
        else db.alerts) := by
  by_cases h : (pred.is_threat && env.enableAlerts) = true
  · refine ⟨⟨db.detections ++
        [mkDetection (db.detections.length + 1) pred hid hydro lat lon],
        db.alerts ++
          [(send_alert env.webhookConfigured env.webhookFails
            (mkDetection (db.detections.length + 1) pred hid hydro lat
              lon)).getLastD default]⟩,
      (if pred.is_threat then
        (broadcast env.connFails ((broadcast env.connFails ws).2)).2
      else (broadcast env.connFails ws).2), ?_, rfl, by rw [if_pos h]⟩
    simp [analyze_upload, h]
  · have h0 : (pred.is_threat && env.enableAlerts) = false := by
      revert h
      cases pred.is_threat && env.enableAlerts <;> simp
    refine ⟨⟨db.detections ++
        [mkDetection (db.detections.length + 1) pred hid hydro lat lon],
        db.alerts⟩,
      (if pred.is_threat then
        (broadcast env.connFails ((broadcast env.connFails ws).2)).2
      else (broadcast env.connFails ws).2), ?_, rfl, by rw [if_neg h]⟩
    simp [analyze_upload, h0]

/-! ## Claim theorems: alert dispatch and the analyze endpoint -/

/-- C1 (code bug demonstration): the dispatcher commits the Alert as
`"pending"` and then as `"sent"` (or `"failed"`), so the status does
transition at most once, but on the sent path `sent_at` is never assigned:
after a successful dispatch the committed row has `status = "sent"` and
`sent_at = NULL`, violating the documented invariant that `sent_at` is set
iff the status is sent.  The three cases are: webhook not configured,
webhook configured and succeeding, webhook configured and raising. -/
theorem alert_sent_without_sent_at :
    (send_alert false false detectionExample).map
        (fun a => (a.status, a.sent_at)) =
      [("pending", none), ("sent", none)] ∧
    (send_alert true false detectionExample).map
        (fun a => (a.status, a.sent_at)) =
      [("pending", none), ("sent", none)] ∧
    (send_alert true true detectionExample).map
        (fun a => (a.status, a.sent_at)) =
      [("pending", none), ("failed", none)] :=
  ⟨rfl, rfl, rfl⟩

/-- C5: once the detection is committed, `analyze` returns success for
every notification environment (any webhook failure, any set of failing
WebSocket subscribers): the call never surfaces a notification failure,
the Detection row is still present with its original fields, and a failed
webhook is recorded only as the alert row committed with
`status = "failed"` (and `sent_at` unset). -/
theorem analyze_detection_durable (pred : Prediction) (hid : Option ℕ)
    (hydro : Option Hydrophone) (lat lon : Option ℚ) (env : AnalyzeEnv)
    (db : DB) (ws : WSState) :
    ∃ out : DB × WSState × DetectionRec,
      analyze_upload false pred hid hydro lat lon env db ws =
        Except.ok out ∧
      out.2.2 = mkDetection (db.detections.length + 1) pred hid hydro
        lat lon ∧
      out.1.detections = db.detections ++ [out.2.2] ∧
      (pred.is_threat = true → env.enableAlerts = true →
        env.webhookConfigured = true → env.webhookFails = true →
        ∃ a, out.1.alerts.getLast? = some a ∧ a.status = "failed" ∧
          a.sent_at = none) := by
  obtain ⟨dbOut, wsOut, h1, h2, h3⟩ :=
    analyze_upload_parts pred hid hydro lat lon env db ws
  refine ⟨(dbOut, wsOut,
    mkDetection (db.detections.length + 1) pred hid hydro lat lon),
    h1, rfl, by simpa using h2, ?_⟩
  intro ht he hc hf
  rw [ht, he] at h3
  simp only [Bool.and_self, if_true] at h3
  rw [hc, hf] at h3
  refine ⟨(send_alert true true
    (mkDetection (db.detections.length + 1) pred hid hydro lat
      lon)).getLastD default, ?_, rfl, rfl⟩
  rw [h3]
  exact List.getLast?_concat db.alerts

/-- Witness for C5: a threat detection against an enabled, configured and
failing webhook on an empty database — the call succeeds, the detection is
stored, and the alert row ends `"failed"`. -/
theorem analyze_detection_durable_witness :
    ∃ out : DB × WSState × DetectionRec,
      analyze_upload false vesselPrediction none none none none
        envFailingWebhook ⟨[], []⟩ ⟨[], []⟩ = Except.ok out ∧
      out.1.detections =
        [mkDetection 1 vesselPrediction none none none none] ∧
      ∃ a, out.1.alerts.getLast? = some a ∧ a.status = "failed" := by
  obtain ⟨out, h1, h2, h3, h4⟩ := analyze_detection_durable vesselPrediction
    none none none none envFailingWebhook ⟨[], []⟩ ⟨[], []⟩
  obtain ⟨a, ha1, ha2, ha3⟩ := h4 rfl rfl rfl rfl
  exact ⟨out, h1, by simp [h3, h2], ⟨a, ha1, ha2⟩⟩

/-- C6 (counterexample): an explicitly supplied request position of `0.0`
does not override the hydrophone position — Python `or` treats `0.0` as
falsy, so the hydrophone coordinates (5, 6) are stored instead of the
supplied (0, 0). -/
theorem analyze_zero_position_counterexample :
    ∃ out : DB × WSState × DetectionRec,
      analyze_upload false ambientPrediction (some 7)
        (some hydrophoneExample) (some 0) (some 0) quietEnv ⟨[], []⟩
        ⟨[], []⟩ = Except.ok out ∧
      out.2.2.latitude = some 5 ∧ out.2.2.longitude = some 6 ∧
      some (5 : ℚ) ≠ some (0 : ℚ) :=
  ⟨_, rfl, rfl, rfl, by decide⟩

/-- C6 (amended): a supplied coordinate overrides the hydrophone coordinate
only when it is non-zero; a supplied `0.0` (like an absent coordinate)
falls back to the hydrophone coordinate, and with neither the coordinate
is null. -/
theorem analyze_position_precedence (pred : Prediction) (hid : Option ℕ)
    (hydro : Option Hydrophone) (lat lon : Option ℚ) (env : AnalyzeEnv)
    (db : DB) (ws : WSState) :
    ∃ out : DB × WSState × DetectionRec,
      analyze_upload false pred hid hydro lat lon env db ws =
        Except.ok out ∧
      (∀ v : ℚ, lat = some v → v ≠ 0 → out.2.2.latitude = some v) ∧
      (lat = none ∨ lat = some 0 →
        out.2.2.latitude = hydroLat hydro) ∧
      (∀ v : ℚ, lon = some v → v ≠ 0 → out.2.2.longitude = some v) ∧
      (lon = none ∨ lon = some 0 →
        out.2.2.longitude = hydroLon hydro) ∧
      ((lat = none ∨ lat = some 0) → hydro = none →
        out.2.2.latitude = none) := by
  obtain ⟨dbOut, wsOut, h1, h2, h3⟩ :=
    analyze_upload_parts pred hid hydro lat lon env db ws
  refine ⟨(dbOut, wsOut,
    mkDetection (db.detections.length + 1) pred hid hydro lat lon),
    h1, ?_, ?_, ?_, ?_, ?_⟩
  · rintro v rfl hv
    show pyOr (some v) (hydroLat hydro) = some v
    simp [pyOr, hv]
  · rintro (rfl | rfl)
    · rfl
    · show pyOr (some 0) (hydroLat hydro) = hydroLat hydro
      simp [pyOr]
  · rintro v rfl hv
    show pyOr (some v) (hydroLon hydro) = some v
    simp [pyOr, hv]
  · rintro (rfl | rfl)
    · rfl
    · show pyOr (some 0) (hydroLon hydro) = hydroLon hydro
      simp [pyOr]
  · rintro h rfl
    rcases h with rfl | rfl
    · rfl
    · show pyOr (some 0) (hydroLat none) = none
      simp [pyOr, hydroLat]

/-- Witness for C6 (amended): a non-zero supplied latitude wins over the
hydrophone, an absent longitude falls back to the hydrophone. -/
theorem analyze_position_precedence_witness :
    ∃ out : DB × WSState × DetectionRec,
      analyze_upload false ambientPrediction none (some hydrophoneExample)
        (some 3) none quietEnv ⟨[], []⟩ ⟨[], []⟩ = Except.ok out ∧
      out.2.2.latitude = some 3 ∧ out.2.2.longitude = some 6 := by
  obtain ⟨out, h1, h2, h3, h4, h5, h6⟩ := analyze_position_precedence
    ambientPrediction none (some hydrophoneExample) (some 3) none quietEnv
    ⟨[], []⟩ ⟨[], []⟩
  exact ⟨out, h1, h2 3 rfl (by decide), h5 (Or.inl rfl)⟩

end EchoGuard
